import Mathlib

/-
Shallow embedding of the stateful prediction-state engine of the
Basketball_Prediction repository: the Elo rating tracker, the rolling
statistics tracker, the feature builder, the confidence scorer, the injury
adjustment calculation and the game-result processor. Each definition is
translated from the corresponding Python source file; Python floats are
modelled as real numbers, team ids and scores as integers, calendar dates
as integer day numbers (Python subtracts two dates to get a day count),
and the mutable per-team dictionaries as functions from team id to an
optional stored value.
-/

namespace BP

/-! ### EloTracker (src/core/elo_tracker.py) -/

namespace EloTracker

def DEFAULT_ELO : ℝ := 1500

def K_FACTOR : ℝ := 20

def HOME_COURT_ADVANTAGE : ℝ := 70

def SEASON_CARRYOVER : ℝ := 0.7

/-- The `_ratings` dictionary of `EloTracker`: maps a team id to its stored
rating, `none` when the team is not tracked. -/
abbrev State := Int → Option ℝ

/-- The empty ratings dictionary (a fresh `EloTracker()`). -/
def emptyState : State := fun _ => none

/-- `EloTracker.get_elo`: stored rating, defaulting to `DEFAULT_ELO = 1500`
for a team that is not tracked. -/
noncomputable def get_elo (st : State) (team_id : Int) : ℝ :=
  (st team_id).getD DEFAULT_ELO

/-- `EloTracker.get_matchup_prob`:
`P_home = 1 / (1 + 10 ^ (-(e_home - e_away + HCA) / 400))`. -/
noncomputable def get_matchup_prob (st : State) (home_id away_id : Int) : ℝ :=
  let e_home := get_elo st home_id
  let e_away := get_elo st away_id
  1 / (1 + (10 : ℝ) ^ (-(e_home - e_away + HOME_COURT_ADVANTAGE) / 400))

/-- `EloTracker.update`: writes `e_home_new` under the home key and then
`e_away_new` under the away key, returning the new dictionary together with
the pair `(e_home_new, e_away_new)` that the Python method returns. -/
noncomputable def update (st : State) (home_id away_id : Int) (home_won : Bool) :
    State × ℝ × ℝ :=
  let e_home := get_elo st home_id
  let e_away := get_elo st away_id
  let p_home := get_matchup_prob st home_id away_id
  let result : ℝ := if home_won then 1.0 else 0.0
  let e_home_new := e_home + K_FACTOR * (result - p_home)
  let e_away_new := e_away - K_FACTOR * (result - p_home)
  let st1 : State := fun i => if i = home_id then some e_home_new else st i
  let st2 : State := fun i => if i = away_id then some e_away_new else st1 i
  (st2, e_home_new, e_away_new)

end EloTracker

/-! ### StatsTracker (src/core/stats_tracker.py) -/

namespace StatsTracker

/-- One recorded game in a team history deque:
`{"pf": int, "pa": int, "won": bool, "date": str}` with the date modelled as
an integer day number. -/
structure GameRec where
  pf : Int
  pa : Int
  won : Bool
  date : Int
deriving DecidableEq

def WINDOW_SIZE : ℕ := 10

def DEFAULT_REST_DAYS : Int := 7

/-- The `_team_games` dictionary: team id to its bounded history, oldest
game first (an absent key behaves like an empty deque, exactly as
`_get_team_deque` creates one on demand). -/
abbrev State := Int → List GameRec

def emptyState : State := fun _ => []

/-- Append to a `deque(maxlen=WINDOW_SIZE)`: the new element goes to the
back and the oldest elements beyond the window are evicted from the front. -/
def dequePush (xs : List GameRec) (g : GameRec) : List GameRec :=
  let ys := xs ++ [g]
  ys.drop (ys.length - WINDOW_SIZE)

/-- `StatsTracker.record_game`. -/
def record_game (st : State) (team_id : Int) (pf pa : Int) (won : Bool)
    (game_date : Int) : State :=
  fun i =>
    if i = team_id then dequePush (st team_id) ⟨pf, pa, won, game_date⟩
    else st i

/-- Result record of `StatsTracker.get_rolling_stats`. -/
structure RollingStats where
  pf_roll : ℝ
  pa_roll : ℝ
  win_roll : ℝ
  margin_roll : ℝ
  games_in_window : ℕ

/-- `StatsTracker.get_rolling_stats`: league-neutral defaults
`110.0 / 110.0 / 0.5 / 0.0 / 0` when the history is empty, otherwise plain
averages over the window. -/
noncomputable def get_rolling_stats (st : State) (team_id : Int) : RollingStats :=
  let games := st team_id
  if games.isEmpty then
    ⟨110.0, 110.0, 0.5, 0.0, 0⟩
  else
    let n : ℝ := games.length
    let pf_sum : ℝ := ((games.map (fun g => g.pf)).sum : ℤ)
    let pa_sum : ℝ := ((games.map (fun g => g.pa)).sum : ℤ)
    let win_sum : ℝ := (games.filter (fun g => g.won)).length
    ⟨pf_sum / n, pa_sum / n, win_sum / n, pf_sum / n - pa_sum / n, games.length⟩

/-- `StatsTracker.get_rest_days`: days since the most recent recorded game,
clamped to `[0, 14]`; `(7, False)` when there is no history; back-to-back
iff the clamped rest is exactly one day. -/
def get_rest_days (st : State) (team_id : Int) (game_date : Int) : Int × Bool :=
  let games := st team_id
  match games.getLast? with
  | none => (DEFAULT_REST_DAYS, false)
  | some last =>
      let rest_days := max 0 (min 14 (game_date - last.date))
      (rest_days, rest_days == 1)

/-- Result record of `StatsTracker.get_form_volatility`. -/
structure FormVolatility where
  margin_std : ℝ
  margin_range : ℝ
  consistency_score : ℝ

/-- Modelled from the spec: `StatsTracker.get_form_volatility` is called by
`ConfidenceScorer._score_form_stability` and exercised by the repository
test suite, but its definition is not present in the provided sources.
Following spec section 4.2, it returns `{margin_std, margin_range,
consistency_score}` computed over the score-margin series of the window,
and a defined moderate-default volatility (rather than an error) when the
history holds zero or one data points. The moderate default places
`margin_std` at 10.0, midway between the scorer thresholds 5.0 and 15.0;
`margin_std` is the population standard deviation of the margins,
`margin_range` their max-minus-min spread, and `consistency_score` maps the
standard deviation linearly into `[0, 1]` (1 at zero deviation, 0 at or
beyond 20 points), matching the bounds asserted by the repository tests. -/
noncomputable def get_form_volatility (st : State) (team_id : Int) : FormVolatility :=
  let margins : List ℝ := (st team_id).map (fun g => ((g.pf - g.pa : ℤ) : ℝ))
  if margins.length ≤ 1 then
    ⟨10.0, 20.0, 0.5⟩
  else
    let n : ℝ := margins.length
    let mean := margins.sum / n
    let variance := (margins.map (fun m => (m - mean) ^ 2)).sum / n
    let std := Real.sqrt variance
    let range := margins.foldl max (margins.headD 0) - margins.foldl min (margins.headD 0)
    ⟨std, range, max 0 (1 - std / 20)⟩

end StatsTracker

/-! ### Player importance (src/core/player_importance.py) -/

namespace PlayerImportance

inductive PlayerTier where
  | ALL_STAR
  | STARTER
  | BENCH
deriving DecidableEq

/-- Lowercase a string character by character (`str.lower()` on the ASCII
names that occur here). -/
def lowerString (s : String) : String :=
  String.mk (s.toList.map Char.toLower)

/-- Strip leading and trailing spaces from a character list (`str.strip()`
on the space-separated names that occur here). -/
def trimChars (cs : List Char) : List Char :=
  ((cs.dropWhile (fun c => c == (' '))).reverse.dropWhile (fun c => c == (' '))).reverse

/-- `normalize_player_name`: lowercase, delete apostrophes (character 39)
and periods, strip, and collapse runs of spaces to a single space. -/
def normalize_player_name (name : String) : String :=
  let cleaned := (name.toList.map Char.toLower).filter
    (fun c => c != Char.ofNat 39 && c != ('.'))
  let words := (List.splitOn (' ') cleaned).filter (fun w => !w.isEmpty)
  String.mk (List.intercalate [' '] words)

/-- `ALL_STAR_PLAYERS`: the hard-coded all-star name set (2025-2026). -/
def ALL_STAR_PLAYERS : List String :=
  ["Giannis Antetokounmpo", "Joel Embiid", "Jayson Tatum", "Jaylen Brown",
   "Damian Lillard", "Donovan Mitchell", "Darius Garland", "Trae Young",
   "Jimmy Butler", "Bam Adebayo", "Tyrese Haliburton", "Paolo Banchero",
   "Franz Wagner", "Jalen Brunson", "Julius Randle", "Scottie Barnes",
   "DeMar DeRozan", "LaMelo Ball", "Cade Cunningham",
   "Nikola Jokic", "Luka Doncic", "Shai Gilgeous-Alexander", "Kevin Durant",
   "Devin Booker", "Stephen Curry", "LeBron James", "Anthony Davis",
   "Kawhi Leonard", "Paul George", "Anthony Edwards", "Karl-Anthony Towns",
   "Ja Morant", "Zion Williamson", "Brandon Ingram", "Domantas Sabonis",
   "De\x27Aaron Fox", "Victor Wembanyama", "Alperen Sengun",
   "Lauri Markkanen",
   "Tyrese Maxey", "Desmond Bane", "Jaren Jackson Jr.", "Evan Mobley",
   "Jalen Williams", "Mikal Bridges", "OG Anunoby", "Kristaps Porzingis"]

/-- `ALL_STAR_PLAYERS_NORMALIZED`: the set comprehension lowercases, removes
apostrophes and periods, and strips each entry (without space collapsing). -/
def ALL_STAR_PLAYERS_NORMALIZED : List String :=
  ALL_STAR_PLAYERS.map (fun name =>
    String.mk (trimChars ((name.toList.map Char.toLower).filter
      (fun c => c != Char.ofNat 39 && c != ('.')))))

/-- `get_player_tier`: all-star when the normalized name is in the set,
otherwise the conservative STARTER default. -/
def get_player_tier (player_name : String) : PlayerTier :=
  if normalize_player_name player_name ∈ ALL_STAR_PLAYERS_NORMALIZED then
    PlayerTier.ALL_STAR
  else
    PlayerTier.STARTER

/-- `get_tier_multiplier`: 2.5 / 1.5 / 1.0. -/
def get_tier_multiplier : PlayerTier → ℝ
  | PlayerTier.ALL_STAR => 2.5
  | PlayerTier.STARTER => 1.5
  | PlayerTier.BENCH => 1.0

/-- `get_player_importance_multiplier`. -/
def get_player_importance_multiplier (player_name : String) : ℝ :=
  get_tier_multiplier (get_player_tier player_name)

end PlayerImportance

/-! ### InjuryClient (src/core/injury_client.py, defaults of src/core/config.py) -/

namespace InjuryClient

/-- `PlayerInjury` restricted to the fields the adjustment path reads. -/
structure PlayerInjury where
  player_name : String
  status : String
deriving DecidableEq

/-- `PlayerInjury.severity_score`. -/
noncomputable def severity_score (inj : PlayerInjury) : ℝ :=
  let status_lower := PlayerImportance.lowerString inj.status
  if status_lower = ("out") ∨ status_lower = ("o") then 1.0
  else if status_lower = ("doubtful") ∨ status_lower = ("d") then 0.75
  else if status_lower = ("questionable") ∨ status_lower = ("q") then 0.5
  else if status_lower = ("day-to-day") ∨ status_lower = ("dtd") then 0.25
  else 0.0

/-- `PlayerInjury.is_out`. -/
def is_out (inj : PlayerInjury) : Bool :=
  let status_lower := PlayerImportance.lowerString inj.status
  status_lower == ("out") || status_lower == ("o")

/-- `PlayerInjury.is_questionable`. -/
def is_questionable (inj : PlayerInjury) : Bool :=
  let status_lower := PlayerImportance.lowerString inj.status
  status_lower == ("questionable") || status_lower == ("q")

/-- `TeamInjuryReport` restricted to the fields the adjustment path reads. -/
structure TeamInjuryReport where
  team_id : Int
  team_name : String
  injuries : List PlayerInjury

/-- `TeamInjuryReport.players_out`. -/
def players_out (r : TeamInjuryReport) : List PlayerInjury :=
  r.injuries.filter is_out

/-- `TeamInjuryReport.players_questionable`. -/
def players_questionable (r : TeamInjuryReport) : List PlayerInjury :=
  r.injuries.filter is_questionable

/-- `TeamInjuryReport.total_severity`: sum of all severity scores. -/
noncomputable def total_severity (r : TeamInjuryReport) : ℝ :=
  (r.injuries.map severity_score).sum

/- Configuration defaults from src/core/config.py (no environment
overrides). -/

def INJURY_ADJUSTMENTS_ENABLED : Bool := true

def INJURY_ADJUSTMENT_MULTIPLIER : ℝ := 20

def INJURY_MAX_ADJUSTMENT : ℝ := -100

def INJURY_MIN_ADJUSTMENT : ℝ := -5

/-- `calculate_injury_adjustment`: per player, severity times importance
multiplier times the base constant; the total is negated, clamped at the
maximum penalty, and snapped to zero when smaller than the minimum. -/
noncomputable def calculate_injury_adjustment (injury_report : TeamInjuryReport)
    (use_player_importance : Bool) : ℝ :=
  if injury_report.injuries.isEmpty then 0.0
  else if !INJURY_ADJUSTMENTS_ENABLED then 0.0
  else
    let total_impact : ℝ :=
      (injury_report.injuries.map (fun injury =>
        let severity := severity_score injury
        let importance :=
          if use_player_importance then
            PlayerImportance.get_player_importance_multiplier injury.player_name
          else 1.0
        severity * importance * INJURY_ADJUSTMENT_MULTIPLIER)).sum
    let adjustment := -total_impact
    if adjustment < INJURY_MAX_ADJUSTMENT then INJURY_MAX_ADJUSTMENT
    else if adjustment > INJURY_MIN_ADJUSTMENT then 0.0
    else adjustment

end InjuryClient

/-! ### FeatureBuilder (src/core/feature_builder.py) -/

namespace FeatureBuilder

/-- `FEATURE_COLS`: the fixed 31-column feature order contract. -/
def FEATURE_COLS : List String :=
  ["elo_home", "elo_away", "elo_diff", "elo_prob",
   "pf_roll_home", "pf_roll_away", "pf_roll_diff",
   "pa_roll_home", "pa_roll_away", "pa_roll_diff",
   "win_roll_home", "win_roll_away", "win_roll_diff",
   "margin_roll_home", "margin_roll_away", "margin_roll_diff",
   "games_in_window_home", "games_in_window_away",
   "home_rest_days", "away_rest_days",
   "home_b2b", "away_b2b", "rest_diff",
   "market_prob_home", "market_prob_away",
   "home_players_out", "away_players_out",
   "home_players_questionable", "away_players_questionable",
   "home_injury_severity", "away_injury_severity"]

/-- `CachedInjuryData` restricted to the fields the feature path reads
(`adjustment` and `severity`); expiry is abstracted into which of the
fresh/stale lookups of `InjuryCtx` answers. -/
structure CachedInjuryData where
  adjustment : ℝ
  severity : ℝ

/-- The availability side-channel of `_get_injury_features` as an explicit
input: the `_injury_adjustments_enabled` flag, the cache lookup with
`allow_stale=False`, the cache lookup with `allow_stale=True`, and the ESPN
fetch, which can raise (`Except.error`) or answer with no report for the
team (`Except.ok none`). Configuration is the src/core/config.py default:
`INJURY_FALLBACK_ON_ERROR = True` and `INJURY_USE_STALE_CACHE = True`. -/
structure InjuryCtx where
  enabled : Bool
  cache_fresh : Int → Option CachedInjuryData
  cache_stale : Int → Option CachedInjuryData
  fetch : Int → Except Unit (Option InjuryClient.TeamInjuryReport)

/-- The tuple returned by `FeatureBuilder._get_injury_features`. -/
structure InjuryFeatures where
  adjustment : ℝ
  players_out : ℝ
  players_questionable : ℝ
  severity : ℝ

def zeroInjuryFeatures : InjuryFeatures := ⟨0.0, 0.0, 0.0, 0.0⟩

/-- `FeatureBuilder._get_injury_features`: fresh cache first (adjustment
and severity only, zero counts), then a live fetch (cached on success),
then — on a fetch failure, with the default fallback configuration — the
stale cache, and finally all zeros. -/
noncomputable def get_injury_features (ctx : InjuryCtx) (team_id : Int) :
    InjuryFeatures :=
  if !ctx.enabled then zeroInjuryFeatures
  else
    match ctx.cache_fresh team_id with
    | some cached => ⟨cached.adjustment, 0.0, 0.0, cached.severity⟩
    | none =>
        match ctx.fetch team_id with
        | Except.ok (some injury_report) =>
            ⟨InjuryClient.calculate_injury_adjustment injury_report true,
             (InjuryClient.players_out injury_report).length,
             (InjuryClient.players_questionable injury_report).length,
             InjuryClient.total_severity injury_report⟩
        | Except.ok none => zeroInjuryFeatures
        | Except.error _ =>
            match ctx.cache_stale team_id with
            | some cached => ⟨cached.adjustment, 0.0, 0.0, cached.severity⟩
            | none => zeroInjuryFeatures

/-- The inner `get_implied_prob` of `build_features`: the American-odds
transform with a neutral 0.5 for a missing line. -/
noncomputable def get_implied_prob (ml : Option ℝ) : ℝ :=
  match ml with
  | none => 0.5
  | some m => if m > 0 then 100 / (m + 100) else |m| / (|m| + 100)

/-- `FeatureBuilder.build_features`: the 31-entry vector in `FEATURE_COLS`
order. The Elo ratings are shifted by the injury adjustments when injury
support is enabled; `elo_prob` is read from the tracker via
`get_matchup_prob`. -/
noncomputable def build_features (elo : EloTracker.State) (stats : StatsTracker.State)
    (ctx : InjuryCtx) (home_id away_id : Int) (game_date : Int)
    (ml_home ml_away : Option ℝ) : List ℝ :=
  let elo_home_base := EloTracker.get_elo elo home_id
  let elo_away_base := EloTracker.get_elo elo away_id
  let homeF := if ctx.enabled then get_injury_features ctx home_id
               else zeroInjuryFeatures
  let awayF := if ctx.enabled then get_injury_features ctx away_id
               else zeroInjuryFeatures
  let elo_home := if ctx.enabled then elo_home_base + homeF.adjustment
                  else elo_home_base
  let elo_away := if ctx.enabled then elo_away_base + awayF.adjustment
                  else elo_away_base
  let elo_diff := elo_home - elo_away
  let elo_prob := EloTracker.get_matchup_prob elo home_id away_id
  let home_stats := StatsTracker.get_rolling_stats stats home_id
  let away_stats := StatsTracker.get_rolling_stats stats away_id
  let pf_roll_diff := home_stats.pf_roll - away_stats.pf_roll
  let pa_roll_diff := home_stats.pa_roll - away_stats.pa_roll
  let win_roll_diff := home_stats.win_roll - away_stats.win_roll
  let margin_roll_diff := home_stats.margin_roll - away_stats.margin_roll
  let home_rest := StatsTracker.get_rest_days stats home_id game_date
  let away_rest := StatsTracker.get_rest_days stats away_id game_date
  let rest_diff := home_rest.1 - away_rest.1
  let market_prob_home := get_implied_prob ml_home
  let market_prob_away := get_implied_prob ml_away
  [elo_home, elo_away, elo_diff, elo_prob,
   home_stats.pf_roll, away_stats.pf_roll, pf_roll_diff,
   home_stats.pa_roll, away_stats.pa_roll, pa_roll_diff,
   home_stats.win_roll, away_stats.win_roll, win_roll_diff,
   home_stats.margin_roll, away_stats.margin_roll, margin_roll_diff,
   (home_stats.games_in_window : ℝ), (away_stats.games_in_window : ℝ),
   (home_rest.1 : ℝ), (away_rest.1 : ℝ),
   (if home_rest.2 then 1 else 0), (if away_rest.2 then 1 else 0),
   (rest_diff : ℝ),
   market_prob_home, market_prob_away,
   homeF.players_out, awayF.players_out,
   homeF.players_questionable, awayF.players_questionable,
   homeF.severity, awayF.severity]

end FeatureBuilder

/-! ### ConfidenceScorer (src/core/confidence_scorer.py) -/

namespace ConfidenceScorer

def CONSENSUS_PERFECT_THRESH : ℝ := 0.03

def CONSENSUS_ZERO_THRESH : ℝ := 0.15

def VOLATILITY_LOW_THRESH : ℝ := 5.0

def VOLATILITY_HIGH_THRESH : ℝ := 15.0

def HISTORY_DECISIVE_THRESH : ℝ := 0.25

def HISTORY_TOSSUP_THRESH : ℝ := 0.05

/-- The lookup `dict(zip(FEATURE_COLS, features)).get(name, default)`:
the value at the position of `name` in `FEATURE_COLS` when the vector
reaches that far, the default otherwise. -/
noncomputable def featureGet (features : List ℝ) (name : String) (default : ℝ) : ℝ :=
  match FeatureBuilder.FEATURE_COLS.indexOf? name with
  | some i => features.getD i default
  | none => default

/-- `_score_consensus_agreement` (max 25): neutral 15 when the market
probability sits within 0.01 of 0.5, otherwise a linear scale on the
model-market disagreement. -/
noncomputable def score_consensus_agreement (prob_home : ℝ) (features : List ℝ) : ℝ :=
  let market_prob_home := featureGet features ("market_prob_home") 0.5
  if |market_prob_home - 0.5| < 0.01 then 15.0
  else
    let disagreement := |prob_home - market_prob_home|
    if disagreement ≤ CONSENSUS_PERFECT_THRESH then 25.0
    else if disagreement ≥ CONSENSUS_ZERO_THRESH then 0.0
    else
      25.0 * (1 - (disagreement - CONSENSUS_PERFECT_THRESH) /
        (CONSENSUS_ZERO_THRESH - CONSENSUS_PERFECT_THRESH))

/-- `_score_feature_alignment` (max 25): fraction of counted directional
signals that agree with the model direction, the rest signal counted only
when the rest difference is at least two days. -/
noncomputable def score_feature_alignment (prob_home : ℝ) (features : List ℝ) : ℝ :=
  let model_favors_home := prob_home > 0.5
  let elo_prob := featureGet features ("elo_prob") 0.5
  let signal1 : ℕ := if (elo_prob > 0.5) ↔ model_favors_home then 1 else 0
  let win_diff := featureGet features ("win_roll_diff") 0.0
  let signal2 : ℕ :=
    if ((win_diff > 0) ↔ model_favors_home) ∨ |win_diff| < 0.05 then 1 else 0
  let margin_diff := featureGet features ("margin_roll_diff") 0.0
  let signal3 : ℕ :=
    if ((margin_diff > 0) ↔ model_favors_home) ∨ |margin_diff| < 1.0 then 1 else 0
  let rest_diff := featureGet features ("rest_diff") 0.0
  let signal4 : ℕ :=
    if |rest_diff| ≥ 2 then (if (rest_diff > 0) ↔ model_favors_home then 1 else 0)
    else 0
  let counted4 : ℕ := if |rest_diff| ≥ 2 then 1 else 0
  let signals_agree : ℕ := signal1 + signal2 + signal3 + signal4
  let total_signals : ℕ := 3 + counted4
  if total_signals = 0 then 15.0
  else 25.0 * ((signals_agree : ℝ) / (total_signals : ℝ))

/-- `_score_form_stability` (max 20): linear in the average margin
standard deviation of the two teams, between a floor of 5 and a cap of 20. -/
noncomputable def score_form_stability (stats : StatsTracker.State)
    (home_id away_id : Int) : ℝ :=
  let home_std := (StatsTracker.get_form_volatility stats home_id).margin_std
  let away_std := (StatsTracker.get_form_volatility stats away_id).margin_std
  let avg_std := (home_std + away_std) / 2
  if avg_std ≤ VOLATILITY_LOW_THRESH then 20.0
  else if avg_std ≥ VOLATILITY_HIGH_THRESH then 5.0
  else
    20.0 - 15.0 * ((avg_std - VOLATILITY_LOW_THRESH) /
      (VOLATILITY_HIGH_THRESH - VOLATILITY_LOW_THRESH))

/-- `_score_schedule_context` (max 15): 15 minus 5 per back-to-back side,
plus 5 for a clear rest advantage, clamped to `[0, 15]`. -/
noncomputable def score_schedule_context (features : List ℝ) : ℝ :=
  let home_b2b := featureGet features ("home_b2b") 0.0 ≠ 0
  let away_b2b := featureGet features ("away_b2b") 0.0 ≠ 0
  let rest_diff := |featureGet features ("rest_diff") 0.0|
  let score := 15.0 - (if home_b2b then 5.0 else 0.0)
    - (if away_b2b then 5.0 else 0.0)
    + (if rest_diff ≥ 2 then 5.0 else 0.0)
  max 0.0 (min 15.0 score)

/-- `_score_matchup_history` (max 15): linear in the distance of the model
probability from the 0.5 toss-up. -/
noncomputable def score_matchup_history (prob_home : ℝ) : ℝ :=
  let distance_from_tossup := |prob_home - 0.5|
  if distance_from_tossup ≥ HISTORY_DECISIVE_THRESH then 15.0
  else if distance_from_tossup ≤ HISTORY_TOSSUP_THRESH then 5.0
  else
    5.0 + 10.0 * ((distance_from_tossup - HISTORY_TOSSUP_THRESH) /
      (HISTORY_DECISIVE_THRESH - HISTORY_TOSSUP_THRESH))

/-- Python `round(x)`: round half to even, as an integer. -/
noncomputable def pyRound (x : ℝ) : ℤ :=
  if x - ⌊x⌋ < 1 / 2 then ⌊x⌋
  else if 1 / 2 < x - ⌊x⌋ then ⌊x⌋ + 1
  else if Even ⌊x⌋ then ⌊x⌋ else ⌊x⌋ + 1

/-- Python `round(x, 1)`: round half to even at one decimal. -/
noncomputable def pyRound1 (x : ℝ) : ℝ :=
  (pyRound (10 * x) : ℝ) / 10

/-- The dictionary returned by `calculate_confidence_score`: the clamped
integer total, the five factor scores rounded to one decimal, and the
textual qualifier. -/
structure ConfidenceResult where
  score : ℤ
  consensus_agreement : ℝ
  feature_alignment : ℝ
  form_stability : ℝ
  schedule_context : ℝ
  matchup_history : ℝ
  qualifier : String

/-- `_get_qualifier`. -/
def get_qualifier (score : ℤ) : String :=
  if score ≥ 75 then ("High Certainty")
  else if score ≥ 50 then ("Moderate")
  else ("Volatile")

/-- `ConfidenceScorer.calculate_confidence_score`: sums the five factors,
rounds, clamps to `[0, 100]` and attaches the qualifier. -/
noncomputable def calculate_confidence_score (stats : StatsTracker.State)
    (prob_home : ℝ) (features : List ℝ) (home_id away_id : Int) :
    ConfidenceResult :=
  let consensus := score_consensus_agreement prob_home features
  let alignment := score_feature_alignment prob_home features
  let volatility := score_form_stability stats home_id away_id
  let schedule := score_schedule_context features
  let history := score_matchup_history prob_home
  let total := consensus + alignment + volatility + schedule + history
  let total_score : ℤ := max 0 (min 100 (pyRound total))
  ⟨total_score, pyRound1 consensus, pyRound1 alignment, pyRound1 volatility,
   pyRound1 schedule, pyRound1 history, get_qualifier total_score⟩

end ConfidenceScorer

/-! ### GameProcessor (src/core/game_processor.py, GameResult of
src/core/espn_client.py) -/

namespace GameProcessor

/-- `GameResult` restricted to the fields the processing path reads. -/
structure GameResult where
  game_date : Int
  home_score : Int
  away_score : Int
  status : String
  home_team_id : Option Int
  away_team_id : Option Int

/-- `GameResult.is_final`. -/
def is_final (r : GameResult) : Bool :=
  PlayerImportance.lowerString r.status == ("final")

/-- `GameResult.home_won`. -/
def home_won (r : GameResult) : Bool :=
  r.away_score < r.home_score

/-- The mutable state a `GameProcessor` owns: the two trackers and the
per-session `_processed_games` key set. -/
structure PState where
  elo : EloTracker.State
  stats : StatsTracker.State
  processed : List (Int × Int × Int)

/-- `GameProcessor._game_key`. -/
def game_key (r : GameResult) : Int × Int × Int :=
  (r.game_date, r.home_team_id.getD 0, r.away_team_id.getD 0)

/-- `GameProcessor.process_game`: skips non-final games, unmapped teams and
already-processed keys (unless forced); otherwise updates the Elo tracker,
records the game in both team histories, and remembers the key. Returns the
new state and the Boolean the Python method returns. -/
noncomputable def process_game (s : PState) (r : GameResult) (force : Bool) :
    PState × Bool :=
  if !(is_final r) then (s, false)
  else
    match r.home_team_id, r.away_team_id with
    | some home_id, some away_id =>
        let key := game_key r
        if force = false ∧ key ∈ s.processed then (s, false)
        else
          let elo1 := (EloTracker.update s.elo home_id away_id (home_won r)).1
          let stats1 := StatsTracker.record_game s.stats home_id r.home_score
            r.away_score (home_won r) r.game_date
          let stats2 := StatsTracker.record_game stats1 away_id r.away_score
            r.home_score (!home_won r) r.game_date
          (⟨elo1, stats2, key :: s.processed⟩, true)
    | _, _ => (s, false)

end GameProcessor

/-! ### Concrete inputs used by the theorems below -/

namespace Examples

/-- A report with one fully-out all-star player (spec section 8 example). -/
def lebronOutReport : InjuryClient.TeamInjuryReport :=
  ⟨14, "Los Angeles Lakers", [⟨"LeBron James", "Out"⟩]⟩

/-- Injury side-channel in which team 1 has a fresh cached adjustment of
minus 50 and every other lookup comes back empty. -/
def ctxC3 : FeatureBuilder.InjuryCtx :=
  ⟨true,
   fun i => if i = 1 then some ⟨-50.0, 2.5⟩ else none,
   fun _ => none,
   fun _ => Except.ok none⟩

/-- Injury side-channel that is enabled but whose cache is empty and whose
fetch always raises. -/
def ctxFailing : FeatureBuilder.InjuryCtx :=
  ⟨true, fun _ => none, fun _ => none, fun _ => Except.error ()⟩

/-- A feature vector whose `market_prob_home` slot (index 23) holds the
even-market probability 0.5 coming from an observed even moneyline. -/
noncomputable def evenMarketFeatures : List ℝ :=
  List.replicate 23 0 ++ [FeatureBuilder.get_implied_prob (some (-100))]

/-- A finalized 100-90 home win between mapped teams 1 and 2. -/
def finalResult : GameProcessor.GameResult :=
  ⟨10, 100, 90, "Final", some 1, some 2⟩

/-- A fresh processor state: empty trackers, nothing processed yet. -/
def freshPState : GameProcessor.PState :=
  ⟨EloTracker.emptyState, StatsTracker.emptyState, []⟩

end Examples

/-- The missing-upstream-data condition for the availability side-channel:
either injury support is disabled, or the caches are empty and the fetch
either raises or knows nothing about the team. -/
def injury_unavailable (ctx : FeatureBuilder.InjuryCtx) (team_id : Int) : Prop :=
  ctx.enabled = false ∨
  (ctx.cache_fresh team_id = none ∧ ctx.cache_stale team_id = none ∧
   (ctx.fetch team_id = Except.error () ∨ ctx.fetch team_id = Except.ok none))

end BP

open BP

/-! ### Shared helper lemmas -/

theorem lowerString_Out : PlayerImportance.lowerString ("Out") = ("out") := by
  decide

theorem lebron_is_all_star :
    PlayerImportance.normalize_player_name ("LeBron James")
      ∈ PlayerImportance.ALL_STAR_PLAYERS_NORMALIZED := by
  decide

theorem lebron_importance :
    PlayerImportance.get_player_importance_multiplier ("LeBron James") = 2.5 := by
  simp [PlayerImportance.get_player_importance_multiplier,
    PlayerImportance.get_player_tier, lebron_is_all_star,
    PlayerImportance.get_tier_multiplier]

theorem severity_score_out :
    InjuryClient.severity_score ⟨"LeBron James", "Out"⟩ = 1.0 := by
  simp [InjuryClient.severity_score, lowerString_Out]

/-! ### C8 -/

/-- C8: the market-implied probability transform of `build_features` maps a
positive moneyline m to 100/(m+100), a non-positive moneyline to
abs(m)/(abs(m)+100) and a missing moneyline to the neutral 0.5; +130 maps
to 100/230 and -150 maps to 150/250 = 0.60. -/
theorem C8_market_implied_prob :
    (∀ m : ℝ, 0 < m → FeatureBuilder.get_implied_prob (some m) = 100 / (m + 100))
    ∧ (∀ m : ℝ, m ≤ 0 → FeatureBuilder.get_implied_prob (some m) = |m| / (|m| + 100))
    ∧ FeatureBuilder.get_implied_prob none = 0.5
    ∧ FeatureBuilder.get_implied_prob (some 130) = 100 / 230
    ∧ FeatureBuilder.get_implied_prob (some (-150)) = 0.60 := by
  refine ⟨?_, ?_, rfl, ?_, ?_⟩
  · intro m hm
    simp [FeatureBuilder.get_implied_prob, hm]
  · intro m hm
    simp [FeatureBuilder.get_implied_prob, not_lt.mpr hm]
  · norm_num [FeatureBuilder.get_implied_prob]
  · norm_num [FeatureBuilder.get_implied_prob, abs_of_nonpos]

/-- C8 witness: the two universally quantified parts of the theorem applied
at the concrete moneylines +130 and -150. -/
theorem C8_market_implied_prob_witness :
    (0 : ℝ) < 130 ∧ (-150 : ℝ) ≤ 0
    ∧ FeatureBuilder.get_implied_prob (some 130) = 100 / (130 + 100)
    ∧ FeatureBuilder.get_implied_prob (some (-150)) = |(-150 : ℝ)| / (|(-150 : ℝ)| + 100) :=
  ⟨by norm_num, by norm_num,
   C8_market_implied_prob.1 130 (by norm_num),
   C8_market_implied_prob.2.1 (-150) (by norm_num)⟩

/-! ### C9 -/

/-- C9: `EloTracker.update` changes no rating other than the two
participants: any other id keeps both its stored dictionary entry (so no
tracked team appears or disappears) and its effective rating. -/
theorem C9_update_frame :
    ∀ (st : EloTracker.State) (home_id away_id other_id : Int) (hw : Bool),
      other_id ≠ home_id → other_id ≠ away_id →
      (EloTracker.update st home_id away_id hw).1 other_id = st other_id
      ∧ EloTracker.get_elo (EloTracker.update st home_id away_id hw).1 other_id
        = EloTracker.get_elo st other_id := by
  intro st h a o hw hoh hoa
  refine ⟨?_, ?_⟩
  · simp [EloTracker.update, hoh, hoa]
  · simp [EloTracker.get_elo, EloTracker.update, hoh, hoa]

/-- C9 witness: an uninvolved team (id 3) is untouched by an update between
teams 1 and 2 on the empty tracker. -/
theorem C9_update_frame_witness :
    (3 : Int) ≠ 1 ∧ (3 : Int) ≠ 2
    ∧ (EloTracker.update EloTracker.emptyState 1 2 true).1 3 = EloTracker.emptyState 3
    ∧ EloTracker.get_elo (EloTracker.update EloTracker.emptyState 1 2 true).1 3
      = EloTracker.get_elo EloTracker.emptyState 3 :=
  ⟨by decide, by decide,
   (C9_update_frame EloTracker.emptyState 1 2 3 true (by decide) (by decide)).1,
   (C9_update_frame EloTracker.emptyState 1 2 3 true (by decide) (by decide)).2⟩

/-! ### C2 -/

/-- C2: `get_form_volatility` is total: for every team id it returns a
defined record; with zero or one recorded games it returns the moderate
default (margin_std 10, midway between the scorer thresholds) instead of
raising, and the returned margin standard deviation is never negative. -/
theorem C2_form_volatility_total_default :
    ∀ (st : StatsTracker.State) (team_id : Int),
      ((st team_id).length ≤ 1 →
        StatsTracker.get_form_volatility st team_id = ⟨10.0, 20.0, 0.5⟩)
      ∧ 0 ≤ (StatsTracker.get_form_volatility st team_id).margin_std := by
  intro st id
  have hlen : ((st id).map (fun g => ((g.pf - g.pa : ℤ) : ℝ))).length
      = (st id).length := List.length_map _ _
  refine ⟨?_, ?_⟩
  · intro hle
    simp only [StatsTracker.get_form_volatility]
    rw [if_pos (by simpa [hlen] using hle)]
  · by_cases hle : (st id).length ≤ 1
    · simp only [StatsTracker.get_form_volatility]
      rw [if_pos (by simpa [hlen] using hle)]
      norm_num
    · simp only [StatsTracker.get_form_volatility]
      rw [if_neg (by simpa [hlen] using hle)]
      exact Real.sqrt_nonneg _

/-- C2 witness: on a fresh tracker, team 99 has no games and receives the
moderate default volatility record. -/
theorem C2_form_volatility_witness :
    (StatsTracker.emptyState 99).length ≤ 1
    ∧ StatsTracker.get_form_volatility StatsTracker.emptyState 99 = ⟨10.0, 20.0, 0.5⟩
    ∧ 0 ≤ (StatsTracker.get_form_volatility StatsTracker.emptyState 99).margin_std :=
  ⟨by simp [StatsTracker.emptyState],
   (C2_form_volatility_total_default StatsTracker.emptyState 99).1
     (by simp [StatsTracker.emptyState]),
   (C2_form_volatility_total_default StatsTracker.emptyState 99).2⟩

/-! ### C7 -/

/-- C7: with player importance enabled and the default configuration,
`calculate_injury_adjustment` returns minus the sum over players of
severity times importance multiplier times 20, clamped to -100 when the
magnitude exceeds 100 and snapped to 0 when the magnitude is below 5; a
single fully-out all-star gives 1.0 * 2.5 * 20 = 50, so the team
adjustment is -50, not snapped to zero. -/
theorem C7_injury_adjustment_formula :
    (∀ r : InjuryClient.TeamInjuryReport,
        InjuryClient.calculate_injury_adjustment r true =
          (let raw : ℝ := -((r.injuries.map (fun inj =>
              InjuryClient.severity_score inj *
              PlayerImportance.get_player_importance_multiplier inj.player_name *
              20)).sum)
           if raw < -100 then -100 else if raw > -5 then 0.0 else raw))
    ∧ InjuryClient.calculate_injury_adjustment Examples.lebronOutReport true = -50 := by
  constructor
  · intro r
    by_cases hemp : r.injuries.isEmpty
    · have h0 : r.injuries = [] := by simpa using hemp
      simp [InjuryClient.calculate_injury_adjustment, h0]
      norm_num
    · simp only [InjuryClient.calculate_injury_adjustment, hemp,
        InjuryClient.INJURY_ADJUSTMENTS_ENABLED,
        InjuryClient.INJURY_ADJUSTMENT_MULTIPLIER,
        InjuryClient.INJURY_MAX_ADJUSTMENT, InjuryClient.INJURY_MIN_ADJUSTMENT,
        Bool.not_true, Bool.false_eq_true, if_false, if_true]
  · simp only [InjuryClient.calculate_injury_adjustment, Examples.lebronOutReport,
      InjuryClient.INJURY_ADJUSTMENTS_ENABLED,
      InjuryClient.INJURY_ADJUSTMENT_MULTIPLIER,
      InjuryClient.INJURY_MAX_ADJUSTMENT, InjuryClient.INJURY_MIN_ADJUSTMENT,
      List.isEmpty_cons, List.map_cons, List.map_nil, List.sum_cons, List.sum_nil,
      severity_score_out, lebron_importance]
    norm_num

/-! ### Feature lookup helpers -/

theorem featureGet_market_prob_home (fs : List ℝ) (d : ℝ) :
    ConfidenceScorer.featureGet fs ("market_prob_home") d = fs.getD 23 d := rfl

theorem evenMarket_lookup :
    ConfidenceScorer.featureGet Examples.evenMarketFeatures ("market_prob_home") 0.5
      = 0.5 := by
  rw [featureGet_market_prob_home]
  have h1 : Examples.evenMarketFeatures.getD 23 0.5
      = FeatureBuilder.get_implied_prob (some (-100)) := rfl
  rw [h1]
  norm_num [FeatureBuilder.get_implied_prob]

/-! ### C10 -/

/-- C10: the consensus-agreement factor returns the neutral 15.0 whenever
the market-implied home probability is within 0.01 of 0.5 — even when a
real even moneyline of -100 was observed (implied probability exactly 0.5)
and even when the model probability equals the market probability exactly —
so the full 25.0 credit is unreachable for any near-even observed market. -/
theorem C10_consensus_neutral_near_even :
    (∀ (prob_home : ℝ) (features : List ℝ),
        |ConfidenceScorer.featureGet features ("market_prob_home") 0.5 - 0.5| < 0.01 →
        ConfidenceScorer.score_consensus_agreement prob_home features = 15.0
        ∧ ConfidenceScorer.score_consensus_agreement prob_home features ≠ 25.0)
    ∧ FeatureBuilder.get_implied_prob (some (-100)) = 0.5
    ∧ ConfidenceScorer.score_consensus_agreement 0.5 Examples.evenMarketFeatures
      = 15.0 := by
  have hkey : ∀ (p : ℝ) (fs : List ℝ),
      |ConfidenceScorer.featureGet fs ("market_prob_home") 0.5 - 0.5| < 0.01 →
      ConfidenceScorer.score_consensus_agreement p fs = 15.0 := by
    intro p fs h
    simp only [ConfidenceScorer.score_consensus_agreement]
    rw [if_pos h]
  refine ⟨fun p fs h => ⟨hkey p fs h, by rw [hkey p fs h]; norm_num⟩, ?_, ?_⟩
  · norm_num [FeatureBuilder.get_implied_prob]
  · exact hkey 0.5 Examples.evenMarketFeatures (by rw [evenMarket_lookup]; norm_num)

/-- C10 witness: the theorem applied to the observed even market (moneyline
-100, implied probability 0.5) with the model probability equal to it. -/
theorem C10_consensus_neutral_near_even_witness :
    |ConfidenceScorer.featureGet Examples.evenMarketFeatures ("market_prob_home") 0.5
        - 0.5| < 0.01
    ∧ ConfidenceScorer.score_consensus_agreement 0.5 Examples.evenMarketFeatures = 15.0
    ∧ ConfidenceScorer.score_consensus_agreement 0.5 Examples.evenMarketFeatures ≠ 25.0 := by
  have h : |ConfidenceScorer.featureGet Examples.evenMarketFeatures
      ("market_prob_home") 0.5 - 0.5| < 0.01 := by
    rw [evenMarket_lookup]; norm_num
  exact ⟨h, (C10_consensus_neutral_near_even.1 0.5 Examples.evenMarketFeatures h).1,
    (C10_consensus_neutral_near_even.1 0.5 Examples.evenMarketFeatures h).2⟩

/-! ### C1 -/

/-- C1: for every model probability in the unit interval, every 31-entry
feature vector, and every pair of team ids, `calculate_confidence_score`
returns a total that is an integer in the range 0 to 100 and equals the sum
of the five factor scores, rounded and clamped — a total function that
never fails to return. -/
theorem C1_confidence_score_total :
    ∀ (stats : StatsTracker.State) (prob_home : ℝ) (features : List ℝ)
      (home_id away_id : Int),
      0 ≤ prob_home → prob_home ≤ 1 → features.length = 31 →
      0 ≤ (ConfidenceScorer.calculate_confidence_score stats prob_home features
            home_id away_id).score
      ∧ (ConfidenceScorer.calculate_confidence_score stats prob_home features
            home_id away_id).score ≤ 100
      ∧ (ConfidenceScorer.calculate_confidence_score stats prob_home features
            home_id away_id).score
        = max 0 (min 100 (ConfidenceScorer.pyRound
            (ConfidenceScorer.score_consensus_agreement prob_home features
             + ConfidenceScorer.score_feature_alignment prob_home features
             + ConfidenceScorer.score_form_stability stats home_id away_id
             + ConfidenceScorer.score_schedule_context features
             + ConfidenceScorer.score_matchup_history prob_home))) := by
  intro stats p fs h a h0 h1 hlen
  exact ⟨le_max_left _ _, max_le (by norm_num) (min_le_left _ _), rfl⟩

/-- C1 witness: the theorem applied to the degenerate input of a fresh
tracker, probability one half, the all-defaults (all-zero) vector, and the
same id on both sides. -/
theorem C1_confidence_score_total_witness :
    (0 : ℝ) ≤ 0.5 ∧ (0.5 : ℝ) ≤ 1 ∧ (List.replicate 31 (0 : ℝ)).length = 31
    ∧ 0 ≤ (ConfidenceScorer.calculate_confidence_score StatsTracker.emptyState 0.5
          (List.replicate 31 0) 7 7).score
    ∧ (ConfidenceScorer.calculate_confidence_score StatsTracker.emptyState 0.5
          (List.replicate 31 0) 7 7).score ≤ 100 :=
  ⟨by norm_num, by norm_num, by simp,
   (C1_confidence_score_total StatsTracker.emptyState 0.5 (List.replicate 31 0) 7 7
     (by norm_num) (by norm_num) (by simp)).1,
   (C1_confidence_score_total StatsTracker.emptyState 0.5 (List.replicate 31 0) 7 7
     (by norm_num) (by norm_num) (by simp)).2.1⟩

/-! ### C6 -/

/-- C6: processing the same finalized result twice (without force) mutates
the state only once: the second call returns false and leaves the whole
processor state — both trackers and the dedup set — exactly as after the
first call. -/
theorem C6_process_game_idempotent :
    ∀ (s : GameProcessor.PState) (r : GameProcessor.GameResult),
      GameProcessor.is_final r = true →
      (GameProcessor.process_game (GameProcessor.process_game s r false).1 r false).2
        = false
      ∧ (GameProcessor.process_game (GameProcessor.process_game s r false).1 r false).1
        = (GameProcessor.process_game s r false).1 := by
  intro s r hfin
  cases hh : r.home_team_id with
  | none =>
      constructor <;> simp [GameProcessor.process_game, hfin, hh]
  | some hid =>
      cases ha : r.away_team_id with
      | none =>
          constructor <;> simp [GameProcessor.process_game, hfin, hh, ha]
      | some aid =>
          by_cases hk : GameProcessor.game_key r ∈ s.processed
          · constructor <;> simp [GameProcessor.process_game, hfin, hh, ha, hk]
          · constructor <;> simp [GameProcessor.process_game, hfin, hh, ha, hk]

/-- C6 witness: the theorem applied to a fresh processor and a concrete
finalized 100-90 home win between mapped teams 1 and 2. -/
theorem C6_process_game_idempotent_witness :
    GameProcessor.is_final Examples.finalResult = true
    ∧ (GameProcessor.process_game
        (GameProcessor.process_game Examples.freshPState Examples.finalResult false).1
        Examples.finalResult false).2 = false
    ∧ (GameProcessor.process_game
        (GameProcessor.process_game Examples.freshPState Examples.finalResult false).1
        Examples.finalResult false).1
      = (GameProcessor.process_game Examples.freshPState Examples.finalResult false).1 :=
  ⟨by decide,
   (C6_process_game_idempotent Examples.freshPState Examples.finalResult (by decide)).1,
   (C6_process_game_idempotent Examples.freshPState Examples.finalResult (by decide)).2⟩

/-! ### C5 helpers: numeric bounds for the default matchup probability -/

theorem rpow_neg_seven_forty_bounds :
    (0.664 : ℝ) < (10 : ℝ) ^ ((-7 : ℝ) / 40)
    ∧ (10 : ℝ) ^ ((-7 : ℝ) / 40) < 0.672 := by
  have hpos : (0 : ℝ) < (10 : ℝ) ^ ((-7 : ℝ) / 40) :=
    Real.rpow_pos_of_pos (by norm_num) _
  have h40 : ((10 : ℝ) ^ ((-7 : ℝ) / 40)) ^ (40 : ℕ) = ((10 : ℝ) ^ (7 : ℕ))⁻¹ := by
    rw [← Real.rpow_natCast ((10 : ℝ) ^ ((-7 : ℝ) / 40)) 40,
        ← Real.rpow_mul (by norm_num : (0 : ℝ) ≤ 10)]
    have hexp : ((-7 : ℝ) / 40) * ((40 : ℕ) : ℝ) = -(7 : ℝ) := by push_cast; ring
    rw [hexp, Real.rpow_neg (by norm_num : (0 : ℝ) ≤ 10)]
    rw [show ((7 : ℝ)) = ((7 : ℕ) : ℝ) by norm_num, Real.rpow_natCast]
  constructor
  · apply lt_of_pow_lt_pow_left₀ 40 (le_of_lt hpos)
    rw [h40]
    norm_num
  · apply lt_of_pow_lt_pow_left₀ 40 (by norm_num : (0 : ℝ) ≤ 0.672)
    rw [h40]
    norm_num

theorem matchup_prob_default_eq :
    EloTracker.get_matchup_prob EloTracker.emptyState 1 2
      = 1 / (1 + (10 : ℝ) ^ ((-7 : ℝ) / 40)) := by
  simp only [EloTracker.get_matchup_prob, EloTracker.get_elo, EloTracker.emptyState,
    EloTracker.HOME_COURT_ADVANTAGE, EloTracker.DEFAULT_ELO, Option.getD_none]
  norm_num

theorem matchup_prob_default_bounds :
    0.598 < EloTracker.get_matchup_prob EloTracker.emptyState 1 2
    ∧ EloTracker.get_matchup_prob EloTracker.emptyState 1 2 < 0.601 := by
  obtain ⟨hl, hu⟩ := rpow_neg_seven_forty_bounds
  rw [matchup_prob_default_eq]
  have ht0 : (0 : ℝ) < 1 + (10 : ℝ) ^ ((-7 : ℝ) / 40) := by linarith
  constructor
  · rw [lt_div_iff₀ ht0]; linarith
  · rw [div_lt_iff₀ ht0]; linarith

/-! ### C5 -/

/-- C5: for distinct teams, `EloTracker.update` changes the home rating by
K * (actual - expected) with K = 20 and actual in {1.0, 0.0}, and changes
the away rating by exactly the negation of the home change (zero-sum); two
unseen teams (both 1500) with HCA = 70 give an expected home probability of
about 0.599 (between 0.598 and 0.601), and after a home win the new
ratings are about 1508.0 and 1492.0 (within 0.1). -/
theorem C5_elo_update_zero_sum :
    (∀ (st : EloTracker.State) (home_id away_id : Int) (hw : Bool),
        home_id ≠ away_id →
        EloTracker.get_elo (EloTracker.update st home_id away_id hw).1 home_id
          = EloTracker.get_elo st home_id
            + EloTracker.K_FACTOR * ((if hw then (1.0 : ℝ) else 0.0)
                - EloTracker.get_matchup_prob st home_id away_id)
        ∧ EloTracker.get_elo (EloTracker.update st home_id away_id hw).1 away_id
            - EloTracker.get_elo st away_id
          = -(EloTracker.get_elo (EloTracker.update st home_id away_id hw).1 home_id
              - EloTracker.get_elo st home_id))
    ∧ (0.598 < EloTracker.get_matchup_prob EloTracker.emptyState 1 2
       ∧ EloTracker.get_matchup_prob EloTracker.emptyState 1 2 < 0.601)
    ∧ (1507.9 < EloTracker.get_elo (EloTracker.update EloTracker.emptyState 1 2 true).1 1
       ∧ EloTracker.get_elo (EloTracker.update EloTracker.emptyState 1 2 true).1 1 < 1508.1)
    ∧ (1491.9 < EloTracker.get_elo (EloTracker.update EloTracker.emptyState 1 2 true).1 2
       ∧ EloTracker.get_elo (EloTracker.update EloTracker.emptyState 1 2 true).1 2 < 1492.1) := by
  have hgen : ∀ (st : EloTracker.State) (h a : Int) (hw : Bool), h ≠ a →
      EloTracker.get_elo (EloTracker.update st h a hw).1 h
        = EloTracker.get_elo st h
          + EloTracker.K_FACTOR * ((if hw then (1.0 : ℝ) else 0.0)
              - EloTracker.get_matchup_prob st h a)
      ∧ EloTracker.get_elo (EloTracker.update st h a hw).1 a
          - EloTracker.get_elo st a
        = -(EloTracker.get_elo (EloTracker.update st h a hw).1 h
            - EloTracker.get_elo st h) := by
    intro st h a hw hne
    have hh : EloTracker.get_elo (EloTracker.update st h a hw).1 h
        = EloTracker.get_elo st h
          + EloTracker.K_FACTOR * ((if hw then (1.0 : ℝ) else 0.0)
              - EloTracker.get_matchup_prob st h a) := by
      simp [EloTracker.update, EloTracker.get_elo, hne]
    have ha : EloTracker.get_elo (EloTracker.update st h a hw).1 a
        = EloTracker.get_elo st a
          - EloTracker.K_FACTOR * ((if hw then (1.0 : ℝ) else 0.0)
              - EloTracker.get_matchup_prob st h a) := by
      simp [EloTracker.update, EloTracker.get_elo]
    exact ⟨hh, by rw [hh, ha]; ring⟩
  have hp := matchup_prob_default_bounds
  have hne12 : (1 : Int) ≠ 2 := by decide
  have hhome : EloTracker.get_elo (EloTracker.update EloTracker.emptyState 1 2 true).1 1
      = EloTracker.get_elo EloTracker.emptyState 1
        + EloTracker.K_FACTOR * ((1.0 : ℝ)
            - EloTracker.get_matchup_prob EloTracker.emptyState 1 2) := by
    simpa using (hgen EloTracker.emptyState 1 2 true hne12).1
  have haway : EloTracker.get_elo (EloTracker.update EloTracker.emptyState 1 2 true).1 2
      - EloTracker.get_elo EloTracker.emptyState 2
      = -(EloTracker.get_elo (EloTracker.update EloTracker.emptyState 1 2 true).1 1
          - EloTracker.get_elo EloTracker.emptyState 1) :=
    (hgen EloTracker.emptyState 1 2 true hne12).2
  have hbase1 : EloTracker.get_elo EloTracker.emptyState 1 = 1500 := by
    simp [EloTracker.get_elo, EloTracker.emptyState, EloTracker.DEFAULT_ELO]
  have hbase2 : EloTracker.get_elo EloTracker.emptyState 2 = 1500 := by
    simp [EloTracker.get_elo, EloTracker.emptyState, EloTracker.DEFAULT_ELO]
  have hK : EloTracker.K_FACTOR = (20 : ℝ) := rfl
  refine ⟨hgen, hp, ?_, ?_⟩
  · rw [hhome, hbase1, hK]
    constructor <;> [linarith [hp.2]; linarith [hp.1]]
  · have h2 : EloTracker.get_elo (EloTracker.update EloTracker.emptyState 1 2 true).1 2
        = 1500 - (EloTracker.get_elo (EloTracker.update EloTracker.emptyState 1 2 true).1 1
            - 1500) := by
      have := haway
      rw [hbase1, hbase2] at this
      linarith
    rw [h2, hhome, hbase1, hK]
    constructor <;> [linarith [hp.1]; linarith [hp.2]]

/-- C5 witness: the universally quantified zero-sum part of the theorem
applied to the empty tracker and teams 1 and 2 after a home win. -/
theorem C5_elo_update_zero_sum_witness :
    (1 : Int) ≠ 2
    ∧ EloTracker.get_elo (EloTracker.update EloTracker.emptyState 1 2 true).1 1
        = EloTracker.get_elo EloTracker.emptyState 1
          + EloTracker.K_FACTOR * ((if true then (1.0 : ℝ) else 0.0)
              - EloTracker.get_matchup_prob EloTracker.emptyState 1 2)
    ∧ EloTracker.get_elo (EloTracker.update EloTracker.emptyState 1 2 true).1 2
        - EloTracker.get_elo EloTracker.emptyState 2
      = -(EloTracker.get_elo (EloTracker.update EloTracker.emptyState 1 2 true).1 1
          - EloTracker.get_elo EloTracker.emptyState 1) :=
  ⟨by decide,
   (C5_elo_update_zero_sum.1 EloTracker.emptyState 1 2 true (by decide)).1,
   (C5_elo_update_zero_sum.1 EloTracker.emptyState 1 2 true (by decide)).2⟩

/-! ### C3 -/

/-- C3 counterexample: with injury adjustments enabled and a cached home
adjustment of -50 (away 0), the elo_prob entry of the built vector is not
the probability computed from the availability-shifted ratings
(1500 - 50 versus 1500): the code derives elo_prob from the unshifted
tracker ratings. -/
theorem C3_elo_prob_counterexample :
    (FeatureBuilder.get_injury_features Examples.ctxC3 1).adjustment = -50
    ∧ (FeatureBuilder.get_injury_features Examples.ctxC3 1).adjustment ≠ 0
    ∧ (FeatureBuilder.build_features EloTracker.emptyState StatsTracker.emptyState
        Examples.ctxC3 1 2 0 none none).getD 3 0
      ≠ 1 / (1 + (10 : ℝ) ^ (-(((1500 + (-50 : ℝ)) - (1500 + 0)) + 70) / 400)) := by
  have hadj : (FeatureBuilder.get_injury_features Examples.ctxC3 1).adjustment = -50 := by
    norm_num [FeatureBuilder.get_injury_features, Examples.ctxC3]
  refine ⟨hadj, by rw [hadj]; norm_num, ?_⟩
  have hval : (FeatureBuilder.build_features EloTracker.emptyState StatsTracker.emptyState
      Examples.ctxC3 1 2 0 none none).getD 3 0
      = EloTracker.get_matchup_prob EloTracker.emptyState 1 2 := rfl
  rw [hval, matchup_prob_default_eq]
  have hexp : (-(((1500 + (-50 : ℝ)) - (1500 + 0)) + 70) / 400) = (-1 : ℝ) / 20 := by
    norm_num
  rw [hexp]
  have hlt : (10 : ℝ) ^ ((-7 : ℝ) / 40) < (10 : ℝ) ^ ((-1 : ℝ) / 20) :=
    (Real.rpow_lt_rpow_left_iff (by norm_num)).mpr (by norm_num)
  have h1 : (0 : ℝ) < 1 + (10 : ℝ) ^ ((-7 : ℝ) / 40) := by
    have := Real.rpow_pos_of_pos (show (0 : ℝ) < 10 by norm_num) ((-7 : ℝ) / 40)
    linarith
  have hne : 1 / (1 + (10 : ℝ) ^ ((-1 : ℝ) / 20))
      < 1 / (1 + (10 : ℝ) ^ ((-7 : ℝ) / 40)) :=
    one_div_lt_one_div_of_lt h1 (by linarith)
  exact ne_of_gt hne

/-- C3 amended: the elo_prob entry of the built vector always equals the
matchup probability computed from the unshifted tracker ratings, while the
rating-difference entry is computed from the availability-shifted ratings
when injury support is enabled. -/
theorem C3_elo_prob_from_unshifted :
    ∀ (elo : EloTracker.State) (stats : StatsTracker.State)
      (ctx : FeatureBuilder.InjuryCtx) (home_id away_id game_date : Int)
      (ml_home ml_away : Option ℝ),
      (FeatureBuilder.build_features elo stats ctx home_id away_id game_date
          ml_home ml_away).getD 3 0
        = EloTracker.get_matchup_prob elo home_id away_id
      ∧ (ctx.enabled = true →
          (FeatureBuilder.build_features elo stats ctx home_id away_id game_date
              ml_home ml_away).getD 2 0
            = (EloTracker.get_elo elo home_id
                + (FeatureBuilder.get_injury_features ctx home_id).adjustment)
              - (EloTracker.get_elo elo away_id
                + (FeatureBuilder.get_injury_features ctx away_id).adjustment)) := by
  intro elo stats ctx h a d mh ma
  refine ⟨rfl, fun hen => ?_⟩
  simp [FeatureBuilder.build_features, hen]

/-- C3 witness: the amended theorem applied at the counterexample input,
where injury support is enabled and the home side carries a -50 adjustment. -/
theorem C3_elo_prob_from_unshifted_witness :
    Examples.ctxC3.enabled = true
    ∧ (FeatureBuilder.build_features EloTracker.emptyState StatsTracker.emptyState
        Examples.ctxC3 1 2 0 none none).getD 3 0
      = EloTracker.get_matchup_prob EloTracker.emptyState 1 2
    ∧ (FeatureBuilder.build_features EloTracker.emptyState StatsTracker.emptyState
        Examples.ctxC3 1 2 0 none none).getD 2 0
      = (EloTracker.get_elo EloTracker.emptyState 1
          + (FeatureBuilder.get_injury_features Examples.ctxC3 1).adjustment)
        - (EloTracker.get_elo EloTracker.emptyState 2
          + (FeatureBuilder.get_injury_features Examples.ctxC3 2).adjustment) :=
  ⟨rfl,
   (C3_elo_prob_from_unshifted EloTracker.emptyState StatsTracker.emptyState
     Examples.ctxC3 1 2 0 none none).1,
   (C3_elo_prob_from_unshifted EloTracker.emptyState StatsTracker.emptyState
     Examples.ctxC3 1 2 0 none none).2 rfl⟩

/-! ### C4 -/

theorem injury_features_of_unavailable (ctx : FeatureBuilder.InjuryCtx) (team_id : Int)
    (h : injury_unavailable ctx team_id) :
    (if ctx.enabled = true then FeatureBuilder.get_injury_features ctx team_id
     else FeatureBuilder.zeroInjuryFeatures) = FeatureBuilder.zeroInjuryFeatures := by
  rcases h with hdis | ⟨hcf, hcs, hf⟩
  · simp [hdis]
  · by_cases hen : ctx.enabled = true
    · rw [if_pos hen]
      rcases hf with hf | hf <;>
        simp [FeatureBuilder.get_injury_features, hen, hcf, hcs, hf]
    · rw [if_neg hen]

/-- C4: `build_features` always returns exactly 31 entries (the length of
`FEATURE_COLS`), and when every upstream input is missing — no moneylines,
empty histories, unavailable or failing availability data — each entry
beyond the four Elo features is the documented per-field default: rolling
stats 110.0/110.0/0.5/0.0/0, rest 7 days and not back-to-back, market
probability 0.5, injury features 0.0; never a shorter vector and never an
exception. -/
theorem C4_build_features_shape_defaults :
    (∀ (elo : EloTracker.State) (stats : StatsTracker.State)
        (ctx : FeatureBuilder.InjuryCtx) (home_id away_id game_date : Int)
        (ml_home ml_away : Option ℝ),
        (FeatureBuilder.build_features elo stats ctx home_id away_id game_date
          ml_home ml_away).length = 31)
    ∧ FeatureBuilder.FEATURE_COLS.length = 31
    ∧ (∀ (elo : EloTracker.State) (stats : StatsTracker.State)
        (ctx : FeatureBuilder.InjuryCtx) (home_id away_id game_date : Int),
        stats home_id = [] → stats away_id = [] →
        injury_unavailable ctx home_id → injury_unavailable ctx away_id →
        (FeatureBuilder.build_features elo stats ctx home_id away_id game_date
          none none).drop 4
        = [110.0, 110.0, 0, 110.0, 110.0, 0, 0.5, 0.5, 0, 0, 0, 0, 0, 0,
           7, 7, 0, 0, 0, 0.5, 0.5, 0, 0, 0, 0, 0, 0]) := by
  refine ⟨fun _ _ _ _ _ _ _ _ => rfl, rfl, ?_⟩
  intro elo stats ctx h a d hsh hsa hih hia
  have hzh := injury_features_of_unavailable ctx h hih
  have hza := injury_features_of_unavailable ctx a hia
  simp only [FeatureBuilder.build_features]
  rw [hzh, hza]
  norm_num [hsh, hsa,
    StatsTracker.get_rolling_stats, StatsTracker.get_rest_days,
    FeatureBuilder.get_implied_prob, FeatureBuilder.zeroInjuryFeatures,
    StatsTracker.DEFAULT_REST_DAYS]

/-- C4 witness: the defaults part of the theorem applied to empty trackers,
a failing availability side-channel, and absent moneylines. -/
theorem C4_build_features_shape_defaults_witness :
    StatsTracker.emptyState 1 = [] ∧ StatsTracker.emptyState 2 = []
    ∧ injury_unavailable Examples.ctxFailing 1
    ∧ injury_unavailable Examples.ctxFailing 2
    ∧ (FeatureBuilder.build_features EloTracker.emptyState StatsTracker.emptyState
        Examples.ctxFailing 1 2 0 none none).drop 4
      = [110.0, 110.0, 0, 110.0, 110.0, 0, 0.5, 0.5, 0, 0, 0, 0, 0, 0,
         7, 7, 0, 0, 0, 0.5, 0.5, 0, 0, 0, 0, 0, 0] :=
  ⟨rfl, rfl, Or.inr ⟨rfl, rfl, Or.inl rfl⟩, Or.inr ⟨rfl, rfl, Or.inl rfl⟩,
   C4_build_features_shape_defaults.2.2 EloTracker.emptyState StatsTracker.emptyState
     Examples.ctxFailing 1 2 0 rfl rfl
     (Or.inr ⟨rfl, rfl, Or.inl rfl⟩) (Or.inr ⟨rfl, rfl, Or.inl rfl⟩)⟩
